import Mathlib

/-!
# Elevator / Motor state machines (stm32f4-bare-metal, projects/elevator)

Shallow embedding of `src/projects/elevator/elevator.cpp` and
`src/projects/elevator/motor.cpp`.  The two tinyfsm machines are embedded
as one explicit system state (`Sys`) holding the active variant of each
machine together with the static data members (`current_floor`,
`dest_floor`, `direction`).  Event dispatch is synchronous: a reaction is
a pure function `Sys → Sys`, and `send_event` to the Motor machine runs
the motor reaction in the same call, exactly as tinyfsm's synchronous
`send_event` does.

The external notification hooks `CallMaintenance` / `CallFirefighters`
(empty stubs in the source, documented as pluggable side-effect hooks)
and the directives posted to the Motor machine are recorded in
observation fields (`maintenanceCalls`, `firefighterCalls`, `motorLog`)
so that "no directive posted" / "no hook runs" statements can be made;
these fields never influence control flow.

The dispatch fabric itself (tinyfsm's `transit` with a transition action)
is not under `src/`.  Modelled from the spec: `transit` commits the new
active variant, then runs the transition action, then the new variant's
entry action.  None of the transition actions in the source reads the
active-variant field, so this ordering agrees observably with the source.
-/

/-- Directive events consumed by the Motor machine (motor.hpp interface). -/
inductive MotorEvent
  | MotorStop
  | MotorUp
  | MotorDown
deriving DecidableEq, Repr

/-- External events consumed by the Elevator machine. `Call` and
`FloorSensor` carry a floor payload (`int floor` in the source). -/
inductive ElevatorEvent
  | Call (floor : Int)
  | FloorSensor (floor : Int)
  | Alarm
deriving DecidableEq, Repr

/-- Active variant of the Motor machine: `Stopped`, `Up`, `Down`. -/
inductive MotorStateV
  | Stopped
  | Up
  | Down
deriving DecidableEq, Repr

/-- Active variant of the Elevator machine: `Idle`, `Moving`, `Panic`. -/
inductive ElevatorStateV
  | Idle
  | Moving
  | Panic
deriving DecidableEq, Repr

/-- The whole system state: active variants of both machines plus the
static data members of the source (`Elevator::current_floor`,
`Elevator::dest_floor`, `Motor::direction`), plus pure observation
fields recording posted motor directives and hook invocations. -/
structure Sys where
  elevState : ElevatorStateV
  motorState : MotorStateV
  direction : Int
  current_floor : Int
  dest_floor : Int
  motorLog : List MotorEvent
  maintenanceCalls : Nat
  firefighterCalls : Nat
deriving DecidableEq, Repr

/-- `Stopped::entry` — `direction = 0;` (motor.cpp). -/
def Stopped_entry (s : Sys) : Sys := { s with direction := 0 }

/-- `Up::entry` — `direction = 1;` (motor.cpp). -/
def Up_entry (s : Sys) : Sys := { s with direction := 1 }

/-- `Down::entry` — `direction = -1;` (motor.cpp). -/
def Down_entry (s : Sys) : Sys := { s with direction := -1 }

/-- Entry action of a Motor variant. -/
def motorEntry : MotorStateV → Sys → Sys
  | .Stopped, s => Stopped_entry s
  | .Up, s => Up_entry s
  | .Down, s => Down_entry s

/-- Motor-machine `transit<S>()`: commit the new variant, run its entry
action (no Motor transition uses a transition action or exit action). -/
def motorTransit (s : Sys) (target : MotorStateV) : Sys :=
  motorEntry target { s with motorState := target }

/-- `Motor::react` base-class handlers (motor.cpp): unconditional
transitions `MotorStop → Stopped`, `MotorUp → Up`, `MotorDown → Down`;
no variant overrides any of them. -/
def Motor_react (s : Sys) : MotorEvent → Sys
  | .MotorStop => motorTransit s .Stopped
  | .MotorUp => motorTransit s .Up
  | .MotorDown => motorTransit s .Down

/-- `send_event(e)` targeting the Motor machine: record the directive in
the observation log, then dispatch it synchronously to the active Motor
variant's reaction. -/
def send_event (s : Sys) (e : MotorEvent) : Sys :=
  Motor_react { s with motorLog := s.motorLog ++ [e] } e

/-- `CallMaintenance` transition hook (empty external stub in
elevator.cpp); its invocation is recorded in `maintenanceCalls`. -/
def CallMaintenance (s : Sys) : Sys :=
  { s with maintenanceCalls := s.maintenanceCalls + 1 }

/-- `CallFirefighters` transition hook (empty external stub in
elevator.cpp); its invocation is recorded in `firefighterCalls`. -/
def CallFirefighters (s : Sys) : Sys :=
  { s with firefighterCalls := s.firefighterCalls + 1 }

/-- `Panic::entry` — `send_event(MotorStop());` (elevator.cpp). -/
def Panic_entry (s : Sys) : Sys := send_event s .MotorStop

/-- `Idle::entry` — `send_event(MotorStop());` (elevator.cpp). -/
def Idle_entry (s : Sys) : Sys := send_event s .MotorStop

/-- Entry action of an Elevator variant; `Moving` has none. -/
def elevatorEntry : ElevatorStateV → Sys → Sys
  | .Idle, s => Idle_entry s
  | .Panic, s => Panic_entry s
  | .Moving, s => s

/-- Elevator-machine `transit<S>(action)`: commit the new active
variant, run the transition action, then the new variant's entry action
(see the fabric note in the file header). -/
def transit (s : Sys) (target : ElevatorStateV) (action : Sys → Sys) : Sys :=
  elevatorEntry target (action { s with elevState := target })

/-- `Moving::react(FloorSensor const &)` (elevator.cpp): compare the
reported floor against `current_floor + Motor::getDirection()`; a
mismatch transits to Panic with the maintenance hook as transition
action; a match commits `current_floor` and transits to Idle when the
destination is reached. -/
def Moving_reactFloorSensor (s : Sys) (f : Int) : Sys :=
  let floor_expected := s.current_floor + s.direction
  if floor_expected ≠ f then
    transit s .Panic CallMaintenance
  else
    let s1 := { s with current_floor := f }
    if f = s1.dest_floor then transit s1 .Idle id else s1

/-- `Idle::react(Call const &)` (elevator.cpp): store the destination;
same-floor calls return immediately; otherwise transit to Moving with
the lambda transition action that posts `MotorUp` / `MotorDown`
according to the floor comparison. -/
def Idle_reactCall (s : Sys) (f : Int) : Sys :=
  let s1 := { s with dest_floor := f }
  if s1.dest_floor = s1.current_floor then s1
  else
    transit s1 .Moving (fun t =>
      if t.dest_floor > t.current_floor then send_event t .MotorUp
      else if t.dest_floor < t.current_floor then send_event t .MotorDown
      else t)

/-- `Elevator::react(Alarm const &)` base-class handler (elevator.cpp):
`transit<Panic>(CallFirefighters)`.  No variant overrides it, so it
fires in every Elevator state, including Panic itself. -/
def Elevator_reactAlarm (s : Sys) : Sys := transit s .Panic CallFirefighters

/-- Virtual dispatch of one posted event to the active Elevator variant:
`Idle` overrides `Call`, `Moving` overrides `FloorSensor`, nothing
overrides `Alarm`; the base-class defaults for `Call` and `FloorSensor`
are empty (no-ops). -/
def Elevator_react (s : Sys) : ElevatorEvent → Sys
  | .Call f =>
      match s.elevState with
      | .Idle => Idle_reactCall s f
      | _ => s
  | .FloorSensor f =>
      match s.elevState with
      | .Moving => Moving_reactFloorSensor s f
      | _ => s
  | .Alarm => Elevator_reactAlarm s

/-- Post a list of external events to the Elevator machine, in order;
each post returns only after its whole reaction chain has run. -/
def run (s : Sys) : List ElevatorEvent → Sys
  | [] => s
  | e :: es => run (Elevator_react s e) es

/-- Startup configuration (`FSM_INITIAL_STATE(Elevator, Idle)`,
`FSM_INITIAL_STATE(Motor, Stopped)`, both floors at
`Elevator::initial_floor`, `Motor::direction{0}`); the bootstrap entry
runs no entry action. -/
def initSys (f0 : Int) : Sys :=
  { elevState := .Idle
    motorState := .Stopped
    direction := 0
    current_floor := f0
    dest_floor := f0
    motorLog := []
    maintenanceCalls := 0
    firefighterCalls := 0 }

/-- The direction value that each Motor variant's entry action writes. -/
def dirOf : MotorStateV → Int
  | .Stopped => 0
  | .Up => 1
  | .Down => -1

/-! ## Helper lemmas -/

/-- Dispatching `Alarm` from any state: the resulting field values. -/
lemma alarm_fields (s : Sys) :
    Elevator_react s .Alarm =
      { elevState := .Panic
        motorState := .Stopped
        direction := 0
        current_floor := s.current_floor
        dest_floor := s.dest_floor
        motorLog := s.motorLog ++ [.MotorStop]
        maintenanceCalls := s.maintenanceCalls
        firefighterCalls := s.firefighterCalls + 1 } := by
  simp [Elevator_react, Elevator_reactAlarm, transit, elevatorEntry, Panic_entry,
    send_event, Motor_react, motorTransit, motorEntry, Stopped_entry, CallFirefighters]

/-- In the Panic state, a `Call` event hits the empty base-class handler. -/
lemma panic_call_noop (s : Sys) (h : s.elevState = .Panic) (f : Int) :
    Elevator_react s (.Call f) = s := by
  simp [Elevator_react, h]

/-- In the Panic state, a `FloorSensor` event hits the empty base-class
handler. -/
lemma panic_floorsensor_noop (s : Sys) (h : s.elevState = .Panic) (f : Int) :
    Elevator_react s (.FloorSensor f) = s := by
  simp [Elevator_react, h]

/-- Once Panic is the active variant, every single dispatched event
leaves Panic active. -/
lemma panic_absorbing (s : Sys) (e : ElevatorEvent) (h : s.elevState = .Panic) :
    (Elevator_react s e).elevState = .Panic := by
  cases e with
  | Call f => rw [panic_call_noop s h f]; exact h
  | FloorSensor f => rw [panic_floorsensor_noop s h f]; exact h
  | Alarm => rw [alarm_fields]

/-! ## Claims -/

/-- C1 counterexample: the claim says that in the Panic state every
event is a no-op that posts no directive and runs no notification hook.
But `Elevator::react(Alarm)` is a base-class handler that Panic does not
override, so from the concrete Panic state reached by posting `Alarm`
from startup, posting `Alarm` again runs the firefighter hook a second
time and posts a second `MotorStop` directive. -/
theorem C1_panic_alarm_counterexample :
    (Elevator_react (initSys 0) .Alarm).elevState = .Panic ∧
    (Elevator_react (initSys 0) .Alarm).firefighterCalls = 1 ∧
    (Elevator_react (initSys 0) .Alarm).motorLog = [.MotorStop] ∧
    (Elevator_react (Elevator_react (initSys 0) .Alarm) .Alarm).firefighterCalls = 2 ∧
    (Elevator_react (Elevator_react (initSys 0) .Alarm) .Alarm).motorLog =
      [.MotorStop, .MotorStop] := by
  decide

/-- C1 (amended): in the Panic state, `Call` and `FloorSensor` hit the
empty default handlers and are complete no-ops, but `Alarm` hits the
non-overridden base-class handler and re-enters Panic: the active
variant, cabin floors and maintenance count are unchanged, while the
firefighter hook runs once more and one more `MotorStop` directive is
posted, leaving the Motor Stopped with direction 0. -/
theorem C1_panic_default_reactions (s : Sys) (h : s.elevState = .Panic) :
    (∀ f, Elevator_react s (.Call f) = s) ∧
    (∀ f, Elevator_react s (.FloorSensor f) = s) ∧
    (Elevator_react s .Alarm).elevState = .Panic ∧
    (Elevator_react s .Alarm).current_floor = s.current_floor ∧
    (Elevator_react s .Alarm).dest_floor = s.dest_floor ∧
    (Elevator_react s .Alarm).motorState = .Stopped ∧
    (Elevator_react s .Alarm).direction = 0 ∧
    (Elevator_react s .Alarm).maintenanceCalls = s.maintenanceCalls ∧
    (Elevator_react s .Alarm).firefighterCalls = s.firefighterCalls + 1 ∧
    (Elevator_react s .Alarm).motorLog = s.motorLog ++ [.MotorStop] := by
  refine ⟨panic_call_noop s h, panic_floorsensor_noop s h, ?_⟩
  rw [alarm_fields]
  exact ⟨rfl, rfl, rfl, rfl, rfl, rfl, rfl, rfl⟩

/-- C1 witness: the amended theorem applied at the concrete Panic state
reached by one `Alarm` from startup. -/
theorem C1_panic_default_reactions_witness :
    (Elevator_react (initSys 0) .Alarm).elevState = .Panic ∧
    (∀ f, Elevator_react (Elevator_react (initSys 0) .Alarm) (.Call f) =
      Elevator_react (initSys 0) .Alarm) :=
  ⟨by decide, (C1_panic_default_reactions (Elevator_react (initSys 0) .Alarm) (by decide)).1⟩

/-- C2: posting `Alarm` from any system state — in particular from any
Elevator variant Idle, Moving or Panic and any cabin/motor configuration
— leaves the Elevator in Panic and the Motor Stopped with direction 0,
all before the post returns. -/
theorem C2_alarm_panics_and_stops_motor (s : Sys) :
    (Elevator_react s .Alarm).elevState = .Panic ∧
    (Elevator_react s .Alarm).motorState = .Stopped ∧
    (Elevator_react s .Alarm).direction = 0 := by
  rw [alarm_fields]
  exact ⟨rfl, rfl, rfl⟩

/-- C4: Panic is terminal — once Panic is the active variant, no
sequence of posted events (`Call`, `FloorSensor`, `Alarm`) ever makes a
different variant active. -/
theorem C4_panic_terminal (s : Sys) (es : List ElevatorEvent)
    (h : s.elevState = .Panic) :
    (run s es).elevState = .Panic := by
  induction es generalizing s with
  | nil => exact h
  | cons e es ih => exact ih (Elevator_react s e) (panic_absorbing s e h)

/-- C4 witness: the terminality theorem applied at the Panic state
reached by one `Alarm` from startup and a concrete later event sequence. -/
theorem C4_panic_terminal_witness :
    (Elevator_react (initSys 0) .Alarm).elevState = .Panic ∧
    (run (Elevator_react (initSys 0) .Alarm)
      [.Call 3, .FloorSensor 1, .Alarm]).elevState = .Panic :=
  ⟨by decide,
    C4_panic_terminal (Elevator_react (initSys 0) .Alarm)
      [.Call 3, .FloorSensor 1, .Alarm] (by decide)⟩

/-- C9: from an Idle state, posting `Alarm` twice in a row yields the
same observable configuration (active variants, direction, both floors)
as posting it once. -/
theorem C9_alarm_idempotent (s : Sys) (h : s.elevState = .Idle) :
    (Elevator_react (Elevator_react s .Alarm) .Alarm).elevState =
      (Elevator_react s .Alarm).elevState ∧
    (Elevator_react (Elevator_react s .Alarm) .Alarm).motorState =
      (Elevator_react s .Alarm).motorState ∧
    (Elevator_react (Elevator_react s .Alarm) .Alarm).direction =
      (Elevator_react s .Alarm).direction ∧
    (Elevator_react (Elevator_react s .Alarm) .Alarm).current_floor =
      (Elevator_react s .Alarm).current_floor ∧
    (Elevator_react (Elevator_react s .Alarm) .Alarm).dest_floor =
      (Elevator_react s .Alarm).dest_floor := by
  rw [alarm_fields, alarm_fields]
  exact ⟨rfl, rfl, rfl, rfl, rfl⟩

/-- C9 witness: the idempotence theorem applied at the startup state. -/
theorem C9_alarm_idempotent_witness :
    (initSys 0).elevState = .Idle ∧
    (Elevator_react (Elevator_react (initSys 0) .Alarm) .Alarm).elevState =
      (Elevator_react (initSys 0) .Alarm).elevState :=
  ⟨by decide, (C9_alarm_idempotent (initSys 0) (by decide)).1⟩

/-- C3: while Moving, a `FloorSensor{f}` report is compared to
`current_floor + direction`; a mismatch transits to Panic (running the
maintenance hook once and forcing the Motor to Stopped), and a match
commits `current_floor := f` and transits to Idle exactly when `f`
equals `dest_floor`, staying Moving otherwise. -/
theorem C3_moving_floorsensor (s : Sys) (f : Int) (h : s.elevState = .Moving) :
    (f ≠ s.current_floor + s.direction →
      (Elevator_react s (.FloorSensor f)).elevState = .Panic ∧
      (Elevator_react s (.FloorSensor f)).maintenanceCalls = s.maintenanceCalls + 1 ∧
      (Elevator_react s (.FloorSensor f)).motorState = .Stopped ∧
      (Elevator_react s (.FloorSensor f)).direction = 0) ∧
    (f = s.current_floor + s.direction →
      (Elevator_react s (.FloorSensor f)).current_floor = f ∧
      (f = s.dest_floor → (Elevator_react s (.FloorSensor f)).elevState = .Idle) ∧
      (f ≠ s.dest_floor → (Elevator_react s (.FloorSensor f)).elevState = .Moving)) := by
  simp only [Elevator_react, h, Moving_reactFloorSensor]
  constructor
  · intro hne
    rw [if_pos (fun hc => hne hc.symm)]
    simp [transit, elevatorEntry, Panic_entry, send_event, Motor_react, motorTransit,
      motorEntry, Stopped_entry, CallMaintenance]
  · intro he
    rw [if_neg (by simp [he])]
    constructor
    · split <;> simp [transit, elevatorEntry, Idle_entry, send_event, Motor_react,
        motorTransit, motorEntry, Stopped_entry]
    · constructor
      · intro hd
        rw [if_pos (by simpa using hd)]
        simp [transit, elevatorEntry, Idle_entry, send_event, Motor_react,
          motorTransit, motorEntry, Stopped_entry]
      · intro hd
        rw [if_neg (by simpa using hd)]

/-- C3 witness: the Moving theorem at a concrete Moving state, reached
by `Call{5}` from floor 0 (Motor Up, direction 1). -/
theorem C3_moving_floorsensor_witness :
    (run (initSys 0) [.Call 5]).elevState = .Moving ∧
    ((4 : Int) ≠ (run (initSys 0) [.Call 5]).current_floor +
        (run (initSys 0) [.Call 5]).direction →
      (Elevator_react (run (initSys 0) [.Call 5]) (.FloorSensor 4)).elevState = .Panic ∧
      (Elevator_react (run (initSys 0) [.Call 5]) (.FloorSensor 4)).maintenanceCalls =
        (run (initSys 0) [.Call 5]).maintenanceCalls + 1 ∧
      (Elevator_react (run (initSys 0) [.Call 5]) (.FloorSensor 4)).motorState = .Stopped ∧
      (Elevator_react (run (initSys 0) [.Call 5]) (.FloorSensor 4)).direction = 0) :=
  ⟨by decide, (C3_moving_floorsensor (run (initSys 0) [.Call 5]) 4 (by decide)).1⟩

/-- C5: from Idle, a `Call{f}` with `f` different from the current floor
stores `f` as the destination, transits to Moving, and — already by the
time the post returns — the Motor is Up with direction 1 when
`f > current_floor` and Down with direction -1 when `f < current_floor`,
the directive having been posted by the transition action (Moving has no
entry action). -/
theorem C5_idle_call_moves (s : Sys) (f : Int) (h : s.elevState = .Idle)
    (hne : f ≠ s.current_floor) :
    (Elevator_react s (.Call f)).dest_floor = f ∧
    (Elevator_react s (.Call f)).elevState = .Moving ∧
    (s.current_floor < f →
      (Elevator_react s (.Call f)).motorState = .Up ∧
      (Elevator_react s (.Call f)).direction = 1 ∧
      (Elevator_react s (.Call f)).motorLog = s.motorLog ++ [.MotorUp]) ∧
    (f < s.current_floor →
      (Elevator_react s (.Call f)).motorState = .Down ∧
      (Elevator_react s (.Call f)).direction = -1 ∧
      (Elevator_react s (.Call f)).motorLog = s.motorLog ++ [.MotorDown]) := by
  simp only [Elevator_react, h, Idle_reactCall]
  rw [if_neg (by simpa using hne)]
  simp only [transit, elevatorEntry, send_event, Motor_react, motorTransit, motorEntry,
    Up_entry, Down_entry]
  split_ifs with hgt hlt
  · exact ⟨rfl, rfl, fun _ => ⟨rfl, rfl, rfl⟩, fun hc => absurd hc (by omega)⟩
  · exact ⟨rfl, rfl, fun hc => absurd hc (by omega), fun _ => ⟨rfl, rfl, rfl⟩⟩
  · exact absurd (by omega : f = s.current_floor) hne

/-- C5 witness: the Call-to-motion theorem at startup floor 0 with
`Call{5}`. -/
theorem C5_idle_call_moves_witness :
    (initSys 0).elevState = .Idle ∧ (5 : Int) ≠ (initSys 0).current_floor ∧
    (Elevator_react (initSys 0) (.Call 5)).dest_floor = 5 :=
  ⟨by decide, by decide, (C5_idle_call_moves (initSys 0) 5 (by decide) (by decide)).1⟩

/-- C6: from Idle, a `Call{f}` with `f` equal to the current floor
returns before any transition: the Elevator stays Idle, the Motor state,
direction and directive log are untouched, and the current floor is
unchanged (only `dest_floor` is written, to the same-floor value `f`). -/
theorem C6_idle_same_floor_call (s : Sys) (f : Int) (h : s.elevState = .Idle)
    (he : f = s.current_floor) :
    (Elevator_react s (.Call f)).elevState = .Idle ∧
    (Elevator_react s (.Call f)).motorState = s.motorState ∧
    (Elevator_react s (.Call f)).direction = s.direction ∧
    (Elevator_react s (.Call f)).motorLog = s.motorLog ∧
    (Elevator_react s (.Call f)).current_floor = s.current_floor ∧
    (Elevator_react s (.Call f)).dest_floor = f := by
  simp only [Elevator_react, h, Idle_reactCall]
  rw [if_pos (by simpa using he)]
  exact ⟨rfl, rfl, rfl, rfl, rfl, rfl⟩

/-- C6 witness: the same-floor no-op theorem at startup floor 3 with
`Call{3}`. -/
theorem C6_idle_same_floor_call_witness :
    (initSys 3).elevState = .Idle ∧ (3 : Int) = (initSys 3).current_floor ∧
    (Elevator_react (initSys 3) (.Call 3)).motorLog = (initSys 3).motorLog :=
  ⟨by decide, by decide,
    (C6_idle_same_floor_call (initSys 3) 3 (by decide) (by decide)).2.2.2.1⟩

/-! ## Invariant machinery for C7 and C10 -/

/-- The direction field agrees with the value written by the active
Motor variant's entry action. -/
def DirProj (s : Sys) : Prop := s.direction = dirOf s.motorState

/-- Every motor dispatch re-establishes the direction projection. -/
lemma dirProj_send_event (s : Sys) (e : MotorEvent) : DirProj (send_event s e) := by
  cases e <;> simp [DirProj, send_event, Motor_react, motorTransit, motorEntry,
    Stopped_entry, Up_entry, Down_entry, dirOf]

/-- One dispatched Elevator event preserves the direction projection:
either the reaction leaves the motor fields alone, or it posts a
directive whose handling rewrites both together. -/
lemma dirProj_step (s : Sys) (e : ElevatorEvent) (h : DirProj s) :
    DirProj (Elevator_react s e) := by
  cases e with
  | Call f =>
    cases hs : s.elevState with
    | Idle =>
      simp only [Elevator_react, hs, Idle_reactCall]
      split
      · exact h
      · simp only [transit, elevatorEntry]
        split_ifs
        · exact dirProj_send_event _ _
        · exact dirProj_send_event _ _
        · exact h
    | Moving => simpa [Elevator_react, hs] using h
    | Panic => simpa [Elevator_react, hs] using h
  | FloorSensor f =>
    cases hs : s.elevState with
    | Moving =>
      simp only [Elevator_react, hs, Moving_reactFloorSensor]
      split
      · exact dirProj_send_event _ _
      · split
        · exact dirProj_send_event _ _
        · exact h
    | Idle => simpa [Elevator_react, hs] using h
    | Panic => simpa [Elevator_react, hs] using h
  | Alarm =>
    simp only [Elevator_react, Elevator_reactAlarm, transit, elevatorEntry, Panic_entry]
    exact dirProj_send_event _ _

/-- The direction projection holds along every event sequence. -/
lemma dirProj_run (es : List ElevatorEvent) (s : Sys) (h : DirProj s) :
    DirProj (run s es) := by
  induction es generalizing s with
  | nil => exact h
  | cons e es ih => exact ih (Elevator_react s e) (dirProj_step s e h)

/-- While Moving, the motor has been commanded Up or Down. -/
def MovingDir (s : Sys) : Prop :=
  s.elevState = .Moving → s.direction = 1 ∨ s.direction = -1

/-- One dispatched Elevator event preserves the Moving-direction
invariant: Moving is entered only from Idle with a strict floor
difference, whose transition action commands Up or Down, and while the
machine stays Moving no reaction touches the direction. -/
lemma movingDir_step (s : Sys) (e : ElevatorEvent) (h : MovingDir s) :
    MovingDir (Elevator_react s e) := by
  cases e with
  | Call f =>
    cases hs : s.elevState with
    | Idle =>
      simp only [Elevator_react, hs, Idle_reactCall]
      split
      · intro hm
        exact absurd hm (by simp [hs])
      · simp only [transit, elevatorEntry, send_event, Motor_react, motorTransit,
          motorEntry, Up_entry, Down_entry]
        split_ifs with hgt hlt
        · intro _; exact Or.inl rfl
        · intro _; exact Or.inr rfl
        · rename_i hne
          exact absurd (by omega : f = s.current_floor) (by simpa using hne)
    | Moving => simpa [Elevator_react, hs] using h
    | Panic => simpa [Elevator_react, hs] using h
  | FloorSensor f =>
    cases hs : s.elevState with
    | Moving =>
      simp only [Elevator_react, hs, Moving_reactFloorSensor]
      split
      · intro hm
        simp [transit, elevatorEntry, Panic_entry, send_event, Motor_react,
          motorTransit, motorEntry, Stopped_entry, CallMaintenance] at hm
      · split
        · intro hm
          simp [transit, elevatorEntry, Idle_entry, send_event, Motor_react,
            motorTransit, motorEntry, Stopped_entry] at hm
        · intro _
          exact h hs
    | Idle => simpa [Elevator_react, hs] using h
    | Panic => simpa [Elevator_react, hs] using h
  | Alarm =>
    intro hm
    rw [alarm_fields] at hm
    exact absurd hm (by simp)

/-- The Moving-direction invariant holds along every event sequence. -/
lemma movingDir_run (es : List ElevatorEvent) (s : Sys) (h : MovingDir s) :
    MovingDir (run s es) := by
  induction es generalizing s with
  | nil => exact h
  | cons e es ih => exact ih (Elevator_react s e) (movingDir_step s e h)

/-- C7: each Motor reaction is an unconditional transition with no
guard — `MotorStop` always yields Stopped with direction 0, `MotorUp`
always yields Up with direction 1, `MotorDown` always yields Down with
direction -1, from any state — and in every configuration reachable
from startup the direction field equals the value determined by the
active Motor variant (`dirOf`): direction is a projection of the Motor
state. -/
theorem C7_motor_unconditional_and_projection :
    (∀ s : Sys,
      ((Motor_react s .MotorStop).motorState = .Stopped ∧
        (Motor_react s .MotorStop).direction = 0) ∧
      ((Motor_react s .MotorUp).motorState = .Up ∧
        (Motor_react s .MotorUp).direction = 1) ∧
      ((Motor_react s .MotorDown).motorState = .Down ∧
        (Motor_react s .MotorDown).direction = -1)) ∧
    (∀ (f0 : Int) (es : List ElevatorEvent),
      (run (initSys f0) es).direction = dirOf (run (initSys f0) es).motorState) := by
  constructor
  · intro s
    refine ⟨⟨rfl, rfl⟩, ⟨rfl, rfl⟩, ⟨rfl, rfl⟩⟩
  · intro f0 es
    exact dirProj_run es (initSys f0) rfl

/-- C8: frame property of the cabin fields — a `Call` reaction never
writes `current_floor`, a `FloorSensor` reaction never writes
`dest_floor`, and an `Alarm` reaction writes neither, in every Elevator
state. -/
theorem C8_floor_field_frame (s : Sys) (f : Int) :
    (Elevator_react s (.Call f)).current_floor = s.current_floor ∧
    (Elevator_react s (.FloorSensor f)).dest_floor = s.dest_floor ∧
    (Elevator_react s .Alarm).current_floor = s.current_floor ∧
    (Elevator_react s .Alarm).dest_floor = s.dest_floor := by
  refine ⟨?_, ?_, ?_, ?_⟩
  · cases hs : s.elevState <;>
      simp only [Elevator_react, hs, Idle_reactCall] <;>
      first
      | rfl
      | (split
         · rfl
         · simp only [transit, elevatorEntry, send_event, Motor_react, motorTransit,
             motorEntry, Up_entry, Down_entry]
           split_ifs <;> rfl)
  · cases hs : s.elevState <;>
      simp only [Elevator_react, hs, Moving_reactFloorSensor] <;>
      first
      | rfl
      | (split
         · simp [transit, elevatorEntry, Panic_entry, send_event, Motor_react,
             motorTransit, motorEntry, Stopped_entry, CallMaintenance]
         · split
           · simp [transit, elevatorEntry, Idle_entry, send_event, Motor_react,
               motorTransit, motorEntry, Stopped_entry]
           · rfl)
  · rw [alarm_fields]
  · rw [alarm_fields]

/-- C10: in every configuration reachable from the startup
configuration by external events, whenever the Elevator's active
variant is Moving the motor direction is +1 or -1, never 0. -/
theorem C10_moving_direction_nonzero (f0 : Int) (es : List ElevatorEvent)
    (h : (run (initSys f0) es).elevState = .Moving) :
    (run (initSys f0) es).direction = 1 ∨ (run (initSys f0) es).direction = -1 :=
  movingDir_run es (initSys f0) (fun hc => absurd hc (by simp [initSys])) h

/-- C10 witness: the reachable-Moving theorem on the concrete run that
posts `Call{5}` from startup floor 0. -/
theorem C10_moving_direction_nonzero_witness :
    (run (initSys 0) [.Call 5]).elevState = .Moving ∧
    ((run (initSys 0) [.Call 5]).direction = 1 ∨
      (run (initSys 0) [.Call 5]).direction = -1) :=
  ⟨by decide, C10_moving_direction_nonzero 0 [.Call 5] (by decide)⟩
